import Mathlib

/-!
Shallow embedding of the Xinference web-UI dashboard's request-orchestration,
list-synchronization and client-side-filter logic, together with theorems
settling the specification's claims about it.

Sources embedded:
* `fetcher` / `updateOptions` (components/fetcher)
* the `filter` predicates of LaunchLLM, LaunchEmbedding, LaunchImage and the
  two LaunchModel variants
* the `update` registry-refresh functions of LaunchLLM, LaunchEmbedding,
  LaunchImage
* the `update` list-refresh of scenes/running_models (placeholder branch and
  partition-by-model_type branch)
* the `launchModel` handlers of AudioCard (guarded) and ModelCard (two-step
  gradio flow, unguarded)
* the Launch-Web-UI probe/create flow and the Terminate handlers of
  scenes/running_models, and the Delete handler of scenes/model_dashboard
-/

/-- A JavaScript value as far as the filter guards observe it: either a
string or some non-string value (`typeof x !== 'string'`). -/
inductive JsVal where
  | str (s : String)
  | other
deriving DecidableEq, Repr

/-- Character-list prefix test (`leadsList sub l` iff `sub` begins `l`). -/
def leadsList : List Char → List Char → Bool
  | [], _ => true
  | _ :: _, [] => false
  | a :: as, b :: bs => a == b && leadsList as bs

/-- Character-list contiguous-subsequence test, the semantics of JavaScript
`String.prototype.includes` at the character level. -/
def subList : List Char → List Char → Bool
  | sub, [] => sub.isEmpty
  | sub, c :: t => leadsList sub (c :: t) || subList sub t

/-- JavaScript `haystack.includes(needle)`. -/
def strIncludes (haystack needle : String) : Bool :=
  subList needle.toList haystack.toList

/-- JavaScript `x ? x.toLowerCase() : ''` for a possibly-absent string field:
`undefined` and the empty string are falsy, every other string is lowered. -/
def lowerOrEmpty : Option String → String
  | none => ""
  | some v => if v = "" then "" else v.toLower

/-- Request options handed to the transport: method, header list (ordered,
as a JavaScript object's own keys) and optional body. -/
structure RequestOptions where
  method : String
  headers : List (String × String)
  body : Option String
deriving DecidableEq, Repr

/-- JavaScript object-spread update `{...headers, k: v}`: replaces the value
of an existing key in place, otherwise appends the key at the end. -/
def setHeader : List (String × String) → String → String → List (String × String)
  | [], k, v => [(k, v)]
  | (k', v') :: rest, k, v =>
      if k' = k then (k, v) :: rest else (k', v') :: setHeader rest k v

/-- JavaScript string coercion of the `token` cookie: an absent cookie reads
as `undefined`, which string-concatenates as "undefined". -/
def tokenText : Option String → String
  | none => "undefined"
  | some s => s

/-- The `updateOptions` function of components/fetcher: copies the options
and, whenever the stored `token` cookie is not the sentinel `no_auth`
(including when the cookie is absent), merges an
`Authorization: Bearer <token>` header into the copy. -/
def updateOptions (token : Option String) (_url : String)
    (options : RequestOptions) : RequestOptions :=
  if token ≠ some "no_auth" then
    { options with
        headers := setHeader options.headers "Authorization"
          ("Bearer " ++ tokenText token) }
  else
    options

/-- The `fetcher` wrapper: what reaches the transport is the URL unchanged
and the options as rewritten by `updateOptions`. -/
def fetcher (token : Option String) (url : String)
    (options : RequestOptions) : String × RequestOptions :=
  (url, updateOptions token url options)

theorem setHeader_lookup (hs : List (String × String)) (k v : String) :
    (setHeader hs k v).lookup k = some v := by
  induction hs with
  | nil => simp [setHeader, List.lookup]
  | cons p rest ih =>
      by_cases h : p.1 = k
      · simp [setHeader, h, List.lookup]
      · simp only [setHeader]
        rw [if_neg (by exact h)]
        have hk : (k == p.1) = false := by
          simp [beq_iff_eq]
          exact fun hkk => h hkk.symm
        simp [List.lookup, hk, ih]

/-- C2 (counterexample): the claim states that with the token absent the
options are passed to the transport unchanged; in the code an absent cookie
reads as `undefined`, which is not equal to `no_auth`, so an
`Authorization: Bearer undefined` header is attached and the options are
not passed through unchanged. -/
theorem fetcher_absent_token_not_passthrough :
    fetcher none "http://e" ⟨"GET", [], none⟩ ≠
      ("http://e", (⟨"GET", [], none⟩ : RequestOptions)) := by
  simp [fetcher, updateOptions, setHeader, tokenText]

/-- C2 (amended): the wrapper attaches an `Authorization: Bearer <token>`
header exactly when the stored token differs from the sentinel `no_auth` —
including when the token is absent, in which case the header value is
`Bearer undefined`; only when the token equals `no_auth` are the options
passed to the transport unchanged. -/
theorem fetcher_auth_header_policy (token : Option String) (url : String)
    (opts : RequestOptions) :
    (token = some "no_auth" → fetcher token url opts = (url, opts)) ∧
    (token ≠ some "no_auth" →
      (fetcher token url opts).1 = url ∧
      ((fetcher token url opts).2.headers.lookup "Authorization"
          = some ("Bearer " ++ tokenText token)) ∧
      (fetcher token url opts).2.method = opts.method ∧
      (fetcher token url opts).2.body = opts.body) := by
  constructor
  · intro h
    simp [fetcher, updateOptions, h]
  · intro h
    refine ⟨rfl, ?_, ?_, ?_⟩
    · simp [fetcher, updateOptions, h, setHeader_lookup]
    · simp [fetcher, updateOptions, h]
    · simp [fetcher, updateOptions, h]

/-- C2 witness: the amended policy evaluated at a present non-sentinel
token, at an absent token, and at the sentinel itself. -/
theorem fetcher_auth_header_policy_witness :
    ((fetcher (some "t0") "u" ⟨"GET", [], none⟩).2.headers.lookup "Authorization"
        = some "Bearer t0") ∧
    ((fetcher none "u" ⟨"GET", [], none⟩).2.headers.lookup "Authorization"
        = some "Bearer undefined") ∧
    fetcher (some "no_auth") "u" ⟨"GET", [], none⟩ =
      ("u", (⟨"GET", [], none⟩ : RequestOptions)) := by
  refine ⟨?_, ?_, ?_⟩
  · exact ((fetcher_auth_header_policy (some "t0") "u" ⟨"GET", [], none⟩).2
      (by simp)).2.1
  · exact ((fetcher_auth_header_policy none "u" ⟨"GET", [], none⟩).2
      (by simp)).2.1
  · exact (fetcher_auth_header_policy (some "no_auth") "u" ⟨"GET", [], none⟩).1 rfl

/-- A registration record as the launch views observe it. Fields that
JavaScript may leave `undefined` are `Option`s; `is_builtin` is the
registry's builtin flag. -/
structure Registration where
  model_name : Option String
  model_description : Option String
  model_ability : Option (List String)
  is_builtin : Bool
deriving DecidableEq, Repr

/-- Outcome of a JavaScript expression that can throw: `.error ()` stands
for a raised `TypeError`. -/
abbrev JsResult (α : Type) := Except Unit α

/-- The `filter` predicate of scenes/launch_model LaunchLLM: guard on an
absent record or non-string term, case-insensitive substring match of the
term against name and description, then — when the ability selector is
truthy and not `all` — an `indexOf` test on `model_ability`, which throws
when that field is absent. -/
def filterLLM (modelAbility : String) (searchTerm : JsVal)
    (registration : Option Registration) : JsResult Bool :=
  match registration with
  | none => .ok false
  | some r =>
    match searchTerm with
    | .other => .ok false
    | .str term =>
      let modelName := lowerOrEmpty r.model_name
      let modelDescription := lowerOrEmpty r.model_description
      if !strIncludes modelName term.toLower &&
          !strIncludes modelDescription term.toLower then
        .ok false
      else if modelAbility ≠ "" ∧ modelAbility ≠ "all" then
        match r.model_ability with
        | none => .error ()
        | some abilities =>
            if abilities.contains modelAbility then .ok true else .ok false
      else
        .ok true

/-- The `filter` predicate of the first LaunchModel variant (part_001,
lines 33–54); its body coincides with the LaunchLLM predicate. -/
def filterLaunchModelV1 (modelAbility : String) (searchTerm : JsVal)
    (registration : Option Registration) : JsResult Bool :=
  match registration with
  | none => .ok false
  | some r =>
    match searchTerm with
    | .other => .ok false
    | .str term =>
      let modelName := lowerOrEmpty r.model_name
      let modelDescription := lowerOrEmpty r.model_description
      if !strIncludes modelName term.toLower &&
          !strIncludes modelDescription term.toLower then
        .ok false
      else if modelAbility ≠ "" ∧ modelAbility ≠ "all" then
        match r.model_ability with
        | none => .error ()
        | some abilities =>
            if abilities.contains modelAbility then .ok true else .ok false
      else
        .ok true

/-- The `filter` predicate of scenes/launch_model/launchImage: guard on an
absent record or non-string term, then a name-only substring match. -/
def filterImage (searchTerm : JsVal) (registration : Option Registration) : Bool :=
  match registration with
  | none => false
  | some r =>
    match searchTerm with
    | .other => false
    | .str term => strIncludes (lowerOrEmpty r.model_name) term.toLower

/-- The `filter` predicate of the LaunchEmbedding view (part_000); its body
coincides with the launchImage predicate. -/
def filterEmbedding (searchTerm : JsVal) (registration : Option Registration) : Bool :=
  match registration with
  | none => false
  | some r =>
    match searchTerm with
    | .other => false
    | .str term => strIncludes (lowerOrEmpty r.model_name) term.toLower

/-- The `filter` predicate of the second LaunchModel variant (part_001,
lines 174–186): no malformed-input guard. `registration.model_name` throws
on an absent record, `.toLowerCase()` throws on an absent `model_name` or a
non-string term, and `model_description` is only evaluated (and can only
throw) when the name did not match, because `&&` short-circuits. -/
def filterLaunchModelV2 (searchTerm : JsVal)
    (registration : Option Registration) : JsResult Bool :=
  match registration with
  | none => .error ()
  | some r =>
    match r.model_name with
    | none => .error ()
    | some name =>
      match searchTerm with
      | .other => .error ()
      | .str term =>
        if strIncludes name.toLower term.toLower then .ok true
        else
          match r.model_description with
          | none => .error ()
          | some desc =>
              if strIncludes desc.toLower term.toLower then .ok true
              else .ok false

/-- C8 (counterexample): the claim states the filter returns false without
error on an absent record or non-string term; the second LaunchModel
variant (part_001, lines 174–186) instead throws a `TypeError` in both
cases, since it dereferences `registration.model_name` and calls
`searchTerm.toLowerCase()` without a guard. -/
theorem filterLaunchModelV2_malformed_throws :
    filterLaunchModelV2 (.str "x") none = .error () ∧
    filterLaunchModelV2 .other (some ⟨some "m", some "d", none, true⟩)
      = .error () ∧
    filterLaunchModelV2 (.str "x") none ≠ .ok false := by
  refine ⟨rfl, rfl, ?_⟩
  simp [filterLaunchModelV2]

/-- C8 (amended): on an absent record or a non-string term the guarded
filter predicates (LaunchLLM, the first LaunchModel variant, LaunchImage,
LaunchEmbedding) return false without raising an error, while the second
LaunchModel variant raises a `TypeError`. -/
theorem filters_malformed_input (modelAbility : String) (searchTerm : JsVal)
    (registration : Option Registration)
    (h : registration = none ∨ searchTerm = .other) :
    filterLLM modelAbility searchTerm registration = .ok false ∧
    filterLaunchModelV1 modelAbility searchTerm registration = .ok false ∧
    filterImage searchTerm registration = false ∧
    filterEmbedding searchTerm registration = false ∧
    filterLaunchModelV2 searchTerm registration = .error () := by
  rcases h with h | h
  · subst h
    exact ⟨rfl, rfl, rfl, rfl, rfl⟩
  · subst h
    cases registration with
    | none => exact ⟨rfl, rfl, rfl, rfl, rfl⟩
    | some r =>
        refine ⟨rfl, rfl, rfl, rfl, ?_⟩
        cases hn : r.model_name <;>
          simp [filterLaunchModelV2, hn]

/-- C8 witness: the amended statement at a present record and a non-string
search term. -/
theorem filters_malformed_input_witness :
    filterLLM "all" .other (some ⟨some "m", some "d", some ["chat"], true⟩)
        = .ok false ∧
    filterLaunchModelV1 "all" .other (some ⟨some "m", some "d", some ["chat"], true⟩)
        = .ok false ∧
    filterImage .other (some ⟨some "m", some "d", some ["chat"], true⟩) = false ∧
    filterEmbedding .other (some ⟨some "m", some "d", some ["chat"], true⟩) = false ∧
    filterLaunchModelV2 .other (some ⟨some "m", some "d", some ["chat"], true⟩)
        = .error () :=
  filters_malformed_input "all" .other
    (some ⟨some "m", some "d", some ["chat"], true⟩) (Or.inr rfl)

/-- C9: when the ability selector is truthy, differs from the sentinel
`all`, and is absent from the record's `model_ability` list, the LaunchLLM
filter and the first LaunchModel variant both reject the record, whatever
the search term. -/
theorem filter_category_mismatch_rejects (modelAbility : String)
    (searchTerm : JsVal) (r : Registration) (abilities : List String)
    (h1 : modelAbility ≠ "") (h2 : modelAbility ≠ "all")
    (h3 : r.model_ability = some abilities) (h4 : modelAbility ∉ abilities) :
    filterLLM modelAbility searchTerm (some r) = .ok false ∧
    filterLaunchModelV1 modelAbility searchTerm (some r) = .ok false := by
  constructor
  · cases searchTerm with
    | other => rfl
    | str t =>
        simp only [filterLLM]
        by_cases htext : (!strIncludes (lowerOrEmpty r.model_name) t.toLower &&
            !strIncludes (lowerOrEmpty r.model_description) t.toLower) = true
        · simp [htext]
        · simp [htext, h1, h2, h3, h4]
  · cases searchTerm with
    | other => rfl
    | str t =>
        simp only [filterLaunchModelV1]
        by_cases htext : (!strIncludes (lowerOrEmpty r.model_name) t.toLower &&
            !strIncludes (lowerOrEmpty r.model_description) t.toLower) = true
        · simp [htext]
        · simp [htext, h1, h2, h3, h4]

/-- C9 witness: a record whose name matches the term but whose ability list
lacks the selector `chat` is rejected by both predicates. -/
theorem filter_category_mismatch_rejects_witness :
    filterLLM "chat" (.str "m") (some ⟨some "m", none, some ["generate"], true⟩)
        = .ok false ∧
    filterLaunchModelV1 "chat" (.str "m")
        (some ⟨some "m", none, some ["generate"], true⟩) = .ok false :=
  filter_category_mismatch_rejects "chat" (.str "m")
    ⟨some "m", none, some ["generate"], true⟩ ["generate"]
    (by simp) (by simp) rfl (by simp)

/-- The `update` function of LaunchLLM (part_000): gated by the two
in-flight flags; on a parsed registry response it stores only the
registrations whose `is_builtin` flag is truthy, and on any caught failure
it leaves the previously stored data in place. -/
def updateLaunchLLM (isCallingApi isUpdatingModel : Bool)
    (prev : List Registration) (result : JsResult (List Registration)) :
    List Registration :=
  if isCallingApi || isUpdatingModel then prev
  else
    match result with
    | .error _ => prev
    | .ok registrations => registrations.filter (fun v => v.is_builtin)

/-- The `update` function of LaunchEmbedding (part_000); its body coincides
with the LaunchLLM one apart from the endpoint queried. -/
def updateLaunchEmbedding (isCallingApi isUpdatingModel : Bool)
    (prev : List Registration) (result : JsResult (List Registration)) :
    List Registration :=
  if isCallingApi || isUpdatingModel then prev
  else
    match result with
    | .error _ => prev
    | .ok registrations => registrations.filter (fun v => v.is_builtin)

/-- The `update` function of launchImage; its body coincides with the
LaunchLLM one apart from the endpoint queried. -/
def updateLaunchImage (isCallingApi isUpdatingModel : Bool)
    (prev : List Registration) (result : JsResult (List Registration)) :
    List Registration :=
  if isCallingApi || isUpdatingModel then prev
  else
    match result with
    | .error _ => prev
    | .ok registrations => registrations.filter (fun v => v.is_builtin)

/-- C10: after a successful registration-list update in the LLM, embedding
and image launch views, every stored registration has `is_builtin = true`,
and a returned registration with `is_builtin = false` is never stored. -/
theorem update_stores_only_builtin (prev registrations : List Registration)
    (r : Registration) :
    (r ∈ updateLaunchLLM false false prev (.ok registrations) →
        r.is_builtin = true) ∧
    (r ∈ registrations → r.is_builtin = false →
        r ∉ updateLaunchLLM false false prev (.ok registrations)) ∧
    (r ∈ updateLaunchEmbedding false false prev (.ok registrations) →
        r.is_builtin = true) ∧
    (r ∈ registrations → r.is_builtin = false →
        r ∉ updateLaunchEmbedding false false prev (.ok registrations)) ∧
    (r ∈ updateLaunchImage false false prev (.ok registrations) →
        r.is_builtin = true) ∧
    (r ∈ registrations → r.is_builtin = false →
        r ∉ updateLaunchImage false false prev (.ok registrations)) := by
  refine ⟨?_, ?_, ?_, ?_, ?_, ?_⟩ <;>
    simp [updateLaunchLLM, updateLaunchEmbedding, updateLaunchImage,
      List.mem_filter] <;>
    intro h1 h2 <;> simp [h1, h2]

/-- C10 witness: one builtin and one custom registration returned by the
registry; only the builtin one is stored, in all three views. -/
theorem update_stores_only_builtin_witness :
    ((⟨some "b", none, none, true⟩ : Registration) ∈
        updateLaunchLLM false false []
          (.ok [⟨some "b", none, none, true⟩, ⟨some "c", none, none, false⟩]) →
      (⟨some "b", none, none, true⟩ : Registration).is_builtin = true) ∧
    ((⟨some "c", none, none, false⟩ : Registration) ∉
        updateLaunchLLM false false []
          (.ok [⟨some "b", none, none, true⟩, ⟨some "c", none, none, false⟩])) := by
  have h := update_stores_only_builtin []
    [⟨some "b", none, none, true⟩, ⟨some "c", none, none, false⟩]
    ⟨some "c", none, none, false⟩
  exact ⟨fun _ => rfl, h.2.1 (by simp) rfl⟩

/-- An observable side effect of an orchestration handler, in execution
order: a network call (method, URL, and the `model_uid` its JSON body
carries, when any), the observation of a call's response, a window-open, a
router navigation, a console error, an error-slot write, a write to one of
the two shared in-flight flags, and the placeholder-row injection of the
running-models view. -/
inductive Event where
  | call (method : String) (url : String) (bodyUid : Option String)
  | resp (url : String)
  | windowOpen (url : String)
  | navigate (path : String)
  | logError
  | setError (msg : String)
  | setCalling (b : Bool)
  | setUpdating (b : Bool)
  | placeholders
deriving DecidableEq, Repr

/-- Network-call recognizer over events. -/
def Event.isCall : Event → Bool
  | .call _ _ _ => true
  | _ => false

/-- Window-open recognizer over events. -/
def Event.isWinOpen : Event → Bool
  | .windowOpen _ => true
  | _ => false

/-- A running-instance value as reported by the list endpoint. -/
structure Instance where
  model_type : String
  model_name : String
deriving DecidableEq, Repr

/-- A row of one of the four category lists: the spread of the instance
value plus `id` and `url` both set to the instance's key. The placeholder
row leaves the instance fields undefined, hence the `Option`s. -/
structure ModelRow where
  model_type : Option String
  model_name : Option String
  id : String
  url : String
deriving DecidableEq, Repr

/-- The `newValue` built by the running-models `update` for one entry of
the instance map: `{...value, id: key, url: key}`. -/
def mkRow (key : String) (value : Instance) : ModelRow :=
  ⟨some value.model_type, some value.model_name, key, key⟩

/-- The placeholder row published while a mutating call is in flight. -/
def loadingRow : ModelRow :=
  ⟨none, none, "Loading, do not refresh page...", "IS_LOADING"⟩

/-- The four category lists of the running-models view. -/
structure RMLists where
  llmData : List ModelRow
  embeddingModelData : List ModelRow
  imageModelData : List ModelRow
  rerankModelData : List ModelRow
deriving DecidableEq, Repr

/-- The partition loop of the running-models `update`: each entry of the
instance map is pushed onto the list selected by its `model_type`, in
iteration order; entries with any other `model_type` are pushed nowhere. -/
def partitionByType : List (String × Instance) → RMLists
  | [] => ⟨[], [], [], []⟩
  | (key, value) :: rest =>
    let acc := partitionByType rest
    let row := mkRow key value
    if value.model_type = "LLM" then
      { acc with llmData := row :: acc.llmData }
    else if value.model_type = "embedding" then
      { acc with embeddingModelData := row :: acc.embeddingModelData }
    else if value.model_type = "image" then
      { acc with imageModelData := row :: acc.imageModelData }
    else if value.model_type = "rerank" then
      { acc with rerankModelData := row :: acc.rerankModelData }
    else acc

/-- Outcome of the list fetch as the running-models `update` observes it:
a parsed instance map, a body that failed to parse as JSON, or a transport
failure. The two failure outcomes reject the same promise chain. -/
inductive RefreshResult where
  | ok (data : List (String × Instance))
  | malformed
  | fail
deriving DecidableEq, Repr

/-- The `update` function of scenes/running_models. With `isCallingApi`
true it publishes the placeholder row into all four lists and touches
nothing else; otherwise it sets the list-refresh flag, issues the GET, and
on success replaces the four lists wholesale with the partition while on
either failure it logs and leaves the previous lists in place. In every
branch the function returns normally (it is total): the `.catch` keeps the
refresh from propagating an exception. Returns (lists, isUpdatingModel,
events). -/
def updateRM (isCallingApi : Bool) (lists : RMLists) (isUpdatingModel : Bool)
    (endPoint : String) (result : RefreshResult) :
    RMLists × Bool × List Event :=
  if isCallingApi then
    (⟨[loadingRow], [loadingRow], [loadingRow], [loadingRow]⟩,
     isUpdatingModel, [Event.placeholders])
  else
    let listUrl := endPoint ++ "/v1/models/"
    match result with
    | .ok data =>
        (partitionByType data, false,
         [Event.setUpdating true, Event.call "GET" listUrl none,
          Event.resp listUrl, Event.setUpdating false])
    | .malformed =>
        (lists, false,
         [Event.setUpdating true, Event.call "GET" listUrl none,
          Event.resp listUrl, Event.logError, Event.setUpdating false])
    | .fail =>
        (lists, false,
         [Event.setUpdating true, Event.call "GET" listUrl none,
          Event.logError, Event.setUpdating false])

theorem partitionByType_eq (data : List (String × Instance)) :
    (partitionByType data).llmData =
      (data.filter (fun kv => kv.2.model_type == "LLM")).map
        (fun kv => mkRow kv.1 kv.2) ∧
    (partitionByType data).embeddingModelData =
      (data.filter (fun kv => kv.2.model_type == "embedding")).map
        (fun kv => mkRow kv.1 kv.2) ∧
    (partitionByType data).imageModelData =
      (data.filter (fun kv => kv.2.model_type == "image")).map
        (fun kv => mkRow kv.1 kv.2) ∧
    (partitionByType data).rerankModelData =
      (data.filter (fun kv => kv.2.model_type == "rerank")).map
        (fun kv => mkRow kv.1 kv.2) := by
  induction data with
  | nil => exact ⟨rfl, rfl, rfl, rfl⟩
  | cons kv rest ih =>
      obtain ⟨k, v⟩ := kv
      obtain ⟨ih1, ih2, ih3, ih4⟩ := ih
      simp only [partitionByType, List.filter_cons]
      split_ifs with h1 h2 h3 h4 <;>
        simp_all [beq_iff_eq]

theorem mem_typed_row_list (data : List (String × Instance)) (k : String)
    (v : Instance) (ty : String) (hmem : (k, v) ∈ data) :
    mkRow k v ∈ (data.filter (fun kv => kv.2.model_type == ty)).map
        (fun kv => mkRow kv.1 kv.2) ↔ v.model_type = ty := by
  constructor
  · intro h
    rcases List.mem_map.mp h with ⟨kv', hkv', hrow⟩
    have hty : kv'.2.model_type = ty := by
      simpa [beq_iff_eq] using (List.mem_filter.mp hkv').2
    have hsame : kv'.2.model_type = v.model_type := by
      simpa [mkRow, ModelRow.mk.injEq] using congrArg ModelRow.model_type hrow
    exact hsame.symm.trans hty
  · intro h
    exact List.mem_map.mpr
      ⟨(k, v), List.mem_filter.mpr ⟨hmem, by simp [h]⟩, rfl⟩

/-- C3: for every instance map returned by the list endpoint, the
running-models refresh places each entry's row in the category list
matching its `model_type` and in no other list; an entry whose
`model_type` is none of `LLM`, `embedding`, `image`, `rerank` appears in
none of the four lists. -/
theorem refresh_partitions_by_model_type (lists : RMLists) (b : Bool)
    (endPoint : String) (data : List (String × Instance)) (k : String)
    (v : Instance) (hmem : (k, v) ∈ data) :
    (mkRow k v ∈ (updateRM false lists b endPoint (.ok data)).1.llmData ↔
        v.model_type = "LLM") ∧
    (mkRow k v ∈ (updateRM false lists b endPoint (.ok data)).1.embeddingModelData ↔
        v.model_type = "embedding") ∧
    (mkRow k v ∈ (updateRM false lists b endPoint (.ok data)).1.imageModelData ↔
        v.model_type = "image") ∧
    (mkRow k v ∈ (updateRM false lists b endPoint (.ok data)).1.rerankModelData ↔
        v.model_type = "rerank") := by
  obtain ⟨e1, e2, e3, e4⟩ := partitionByType_eq data
  have hfirst : (updateRM false lists b endPoint (.ok data)).1 =
      partitionByType data := rfl
  rw [hfirst, e1, e2, e3, e4]
  exact ⟨mem_typed_row_list data k v "LLM" hmem,
         mem_typed_row_list data k v "embedding" hmem,
         mem_typed_row_list data k v "image" hmem,
         mem_typed_row_list data k v "rerank" hmem⟩

/-- C3 witness: the spec scenario — the map `{"m1": {LLM, "x"}}` puts the
row with id `m1` in the LLM list and in no other list; additionally the
other three lists are empty. -/
theorem refresh_partitions_by_model_type_witness :
    (mkRow "m1" ⟨"LLM", "x"⟩ ∈
        (updateRM false ⟨[], [], [], []⟩ false "e"
          (.ok [("m1", ⟨"LLM", "x"⟩)])).1.llmData ↔ ("LLM" : String) = "LLM") ∧
    (mkRow "m1" ⟨"LLM", "x"⟩ ∈
        (updateRM false ⟨[], [], [], []⟩ false "e"
          (.ok [("m1", ⟨"LLM", "x"⟩)])).1.embeddingModelData ↔
        ("LLM" : String) = "embedding") ∧
    (updateRM false ⟨[], [], [], []⟩ false "e"
        (.ok [("m1", ⟨"LLM", "x"⟩)])).1.embeddingModelData = [] ∧
    (updateRM false ⟨[], [], [], []⟩ false "e"
        (.ok [("m1", ⟨"LLM", "x"⟩)])).1.imageModelData = [] ∧
    (updateRM false ⟨[], [], [], []⟩ false "e"
        (.ok [("m1", ⟨"LLM", "x"⟩)])).1.rerankModelData = [] := by
  have h := refresh_partitions_by_model_type ⟨[], [], [], []⟩ false "e"
    [("m1", ⟨"LLM", "x"⟩)] "m1" ⟨"LLM", "x"⟩ (by simp)
  exact ⟨h.1, h.2.1, rfl, rfl, rfl⟩

/-- C7: the running-models refresh is a total function of its fetch
outcome — it never propagates an exception — and on either failure
outcome (transport failure or malformed response body) it logs the error,
clears the list-refresh in-flight flag, and leaves the four previously
displayed category lists untouched. -/
theorem refresh_failure_is_contained (lists : RMLists) (b : Bool)
    (endPoint : String) (result : RefreshResult)
    (h : result = .malformed ∨ result = .fail) :
    (updateRM false lists b endPoint result).1 = lists ∧
    (updateRM false lists b endPoint result).2.1 = false ∧
    Event.logError ∈ (updateRM false lists b endPoint result).2.2 := by
  rcases h with h | h <;> subst h <;>
    exact ⟨rfl, rfl, by simp [updateRM]⟩

/-- C7 witness: a transport failure against a non-empty displayed list. -/
theorem refresh_failure_is_contained_witness :
    (updateRM false ⟨[loadingRow], [], [], []⟩ true "e" .fail).1 =
      ⟨[loadingRow], [], [], []⟩ ∧
    (updateRM false ⟨[loadingRow], [], [], []⟩ true "e" .fail).2.1 = false ∧
    Event.logError ∈
      (updateRM false ⟨[loadingRow], [], [], []⟩ true "e" .fail).2.2 :=
  refresh_failure_is_contained ⟨[loadingRow], [], [], []⟩ true "e" .fail
    (Or.inr rfl)

/-- JavaScript `x || d` for an optional string: `undefined` and the empty
string both fall back to the default. -/
def orDefault (x : Option String) (d : String) : String :=
  match x with
  | none => d
  | some s => if s = "" then d else s

/-- Client state visible to the AudioCard launch handler: the two shared
in-flight flags, the shared error slot and the router location. -/
structure AudioState where
  isCallingApi : Bool
  isUpdatingModel : Bool
  errorMsg : Option String
  route : String
deriving DecidableEq, Repr

/-- Outcome of the AudioCard launch POST: a 2xx response, a non-2xx
response whose parsed body optionally carries a `detail` field, or a
transport failure. -/
inductive AudioOutcome where
  | ok
  | errStatus (status : Nat) (detail : Option String)
  | fail
deriving DecidableEq, Repr

/-- The `launchModel` handler of AudioCard (part_000, lines 38–78): gated
on the two in-flight flags, then one POST whose body's `model_uid` is null
when the trimmed UID input is empty; on success it navigates to the
running-models view, on a non-2xx status it writes the error slot, and in
every completed branch it clears the mutating flag. -/
def audioLaunchModel (st : AudioState) (url modelUID : String)
    (outcome : AudioOutcome) : List Event × AudioState :=
  if st.isCallingApi || st.isUpdatingModel then ([], st)
  else
    let bodyUid := if modelUID.trim = "" then none else some modelUID.trim
    let postUrl := url ++ "/v1/models"
    match outcome with
    | .ok =>
        ([Event.setCalling true, Event.call "POST" postUrl bodyUid,
          Event.resp postUrl, Event.navigate "/running_models",
          Event.setCalling false],
         { st with isCallingApi := false, route := "/running_models" })
    | .errStatus s detail =>
        let msg := "Server error: " ++ toString s ++ " - " ++
          orDefault detail "Unknown error"
        ([Event.setCalling true, Event.call "POST" postUrl bodyUid,
          Event.resp postUrl, Event.setCalling false, Event.setError msg],
         { st with isCallingApi := false, errorMsg := some msg })
    | .fail =>
        ([Event.setCalling true, Event.call "POST" postUrl bodyUid,
          Event.logError, Event.setCalling false],
         { st with isCallingApi := false })

/-- Client state visible to the ModelCard launch handler. -/
structure MCState where
  isCallingApi : Bool
  isUpdatingModel : Bool
deriving DecidableEq, Repr

/-- Resolution or rejection of one step of the ModelCard chain. -/
inductive StepResult where
  | ok
  | fail
deriving DecidableEq, Repr

/-- The `launchModel` handler of ModelCard (part_000, lines 242–292): no
in-flight guard — it immediately sets the mutating flag, generates one
uuid, POSTs the descriptor (with that uuid as `model_uid`) to
`/v1/models`, then in the continuation of the first response POSTs the
same body to `/v1/gradio/<uuid>`, and in the continuation of the second
response opens `<url>/<uuid>`; any rejection is caught, logged and clears
the flag. -/
def modelCardLaunchModel (st : MCState) (uuid url : String)
    (r1 r2 : StepResult) : List Event × MCState :=
  let firstUrl := url ++ "/v1/models"
  let pre := [Event.setCalling true, Event.call "POST" firstUrl (some uuid)]
  match r1 with
  | .fail =>
      (pre ++ [Event.logError, Event.setCalling false],
       { st with isCallingApi := false })
  | .ok =>
    let secondUrl := url ++ "/v1/gradio/" ++ uuid
    match r2 with
    | .fail =>
        (pre ++ [Event.resp firstUrl,
          Event.call "POST" secondUrl (some uuid),
          Event.logError, Event.setCalling false],
         { st with isCallingApi := false })
    | .ok =>
        (pre ++ [Event.resp firstUrl,
          Event.call "POST" secondUrl (some uuid),
          Event.resp secondUrl,
          Event.windowOpen (url ++ "/" ++ uuid),
          Event.setCalling false],
         { st with isCallingApi := false })

/-- C1 (counterexample): the claim states every launch invocation made
while an in-flight flag is true is a no-op; the ModelCard `launchModel`
has no guard, so invoked with the mutating flag already true it still
performs two network calls and still rewrites the flag state. -/
theorem modelCard_launch_not_gated :
    (modelCardLaunchModel ⟨true, false⟩ "u1" "e" .ok .ok).1.countP
        Event.isCall ≠ 0 ∧
    (modelCardLaunchModel ⟨true, false⟩ "u1" "e" .ok .ok).2 ≠
      (⟨true, false⟩ : MCState) := by
  constructor
  · simp [modelCardLaunchModel, Event.isCall]
  · simp [modelCardLaunchModel]

/-- C1 (amended): the guarded launch handler (AudioCard) invoked while
either in-flight flag is true is a no-op — it performs zero network calls
and leaves flags, error slot and view state unchanged — while the
ModelCard launch handler performs its network calls regardless of the
flags, relying only on the disabled launch button for gating. -/
theorem launch_gating (st : AudioState) (st' : MCState)
    (url modelUID uuid url' : String) (outcome : AudioOutcome)
    (r1 r2 : StepResult)
    (h : st.isCallingApi = true ∨ st.isUpdatingModel = true) :
    audioLaunchModel st url modelUID outcome = ([], st) ∧
    0 < (modelCardLaunchModel st' uuid url' r1 r2).1.countP Event.isCall := by
  constructor
  · have hcond : (st.isCallingApi || st.isUpdatingModel) = true := by
      rcases h with h | h <;> simp [h]
    simp [audioLaunchModel, hcond]
  · cases r1 <;> cases r2 <;>
      simp [modelCardLaunchModel, Event.isCall]

/-- C1 witness: the amended statement with the mutating flag set. -/
theorem launch_gating_witness :
    audioLaunchModel ⟨true, false, none, "/"⟩ "e" "" .ok =
      ([], ⟨true, false, none, "/"⟩) ∧
    0 < (modelCardLaunchModel ⟨true, false⟩ "u1" "e" .ok .ok).1.countP
        Event.isCall :=
  launch_gating ⟨true, false, none, "/"⟩ ⟨true, false⟩ "e" "" "u1" "e"
    .ok .ok .ok (Or.inl rfl)

/-- C5: in the two-step ModelCard launch with both steps resolving, the
handler performs exactly two POSTs — both carrying the one generated uuid,
the second addressed to `/v1/gradio/<uuid>` — opens `<url>/<uuid>`, and
issues the second POST only at a trace position strictly after the first
call's response is observed. -/
theorem modelCard_two_step_uuid_consistency (st : MCState) (uuid url : String) :
    (modelCardLaunchModel st uuid url .ok .ok).1.filter Event.isCall =
      [Event.call "POST" (url ++ "/v1/models") (some uuid),
       Event.call "POST" (url ++ "/v1/gradio/" ++ uuid) (some uuid)] ∧
    Event.windowOpen (url ++ "/" ++ uuid) ∈
      (modelCardLaunchModel st uuid url .ok .ok).1 ∧
    (∃ i j : Nat, i < j ∧
      (modelCardLaunchModel st uuid url .ok .ok).1.get? i =
        some (Event.resp (url ++ "/v1/models")) ∧
      (modelCardLaunchModel st uuid url .ok .ok).1.get? j =
        some (Event.call "POST" (url ++ "/v1/gradio/" ++ uuid) (some uuid))) := by
  refine ⟨rfl, ?_, ⟨2, 3, by omega, rfl, rfl⟩⟩
  simp [modelCardLaunchModel]

/-- Resolution of the HEAD existence probe: an HTTP status, or a transport
rejection. -/
inductive ProbeResult where
  | status (s : Nat)
  | fail
deriving DecidableEq, Repr

/-- Resolution of the UI-creation POST: response received and body parsed,
response received but body not JSON, or transport rejection. -/
inductive CreateResult where
  | ok
  | jsonFail
  | fail
deriving DecidableEq, Repr

/-- The Launch-Web-UI click handler of scenes/running_models (llmColumns
renderCell): gated on the two in-flight flags; HEAD-probes
`<endPoint>/<uid>`; on status 404 POSTs the row descriptor to
`<endPoint>/v1/ui/<uid>` and opens the URL once that response's body is
parsed; on an ok (2xx) probe opens the URL directly; on any other probe
status logs an unexpected-status error; a transport rejection anywhere is
caught and logged. The inner chain's `.finally` clears the mutating flag
before the outer `.catch` logs. -/
def openUiClick (isCallingApi isUpdatingModel : Bool)
    (endPoint modelUid : String) (probe : ProbeResult)
    (create : CreateResult) : List Event :=
  if isCallingApi || isUpdatingModel then []
  else
    let openUrl := endPoint ++ "/" ++ modelUid
    let gradioUrl := endPoint ++ "/v1/ui/" ++ modelUid
    Event.setCalling true :: Event.call "HEAD" openUrl none ::
    (match probe with
     | .fail => [Event.logError, Event.setCalling false]
     | .status s =>
       if s = 404 then
         Event.resp openUrl :: Event.call "POST" gradioUrl none ::
         (match create with
          | .ok => [Event.resp gradioUrl, Event.windowOpen openUrl,
              Event.setCalling false]
          | .jsonFail => [Event.resp gradioUrl, Event.setCalling false,
              Event.logError]
          | .fail => [Event.setCalling false, Event.logError])
       else if 200 ≤ s ∧ s ≤ 299 then
         [Event.resp openUrl, Event.windowOpen openUrl, Event.setCalling false]
       else
         [Event.resp openUrl, Event.logError, Event.setCalling false])

/-- C4: in the open-UI flow with the gate passed, a 404 probe leads to
exactly two network calls, both before the window-open; a 2xx probe leads
to exactly one network call and the URL is opened directly; any other
probe status logs an error and never opens the window. -/
theorem openUi_flow_call_counts (endPoint modelUid : String) (s : Nat)
    (create : CreateResult) :
    (s = 404 → create = .ok →
      ((openUiClick false false endPoint modelUid (.status s) create).takeWhile
          (fun e => !e.isWinOpen)).countP Event.isCall = 2 ∧
      (openUiClick false false endPoint modelUid (.status s) create).countP
          Event.isCall = 2 ∧
      Event.windowOpen (endPoint ++ "/" ++ modelUid) ∈
        openUiClick false false endPoint modelUid (.status s) create) ∧
    (200 ≤ s → s ≤ 299 →
      (openUiClick false false endPoint modelUid (.status s) create).countP
          Event.isCall = 1 ∧
      Event.windowOpen (endPoint ++ "/" ++ modelUid) ∈
        openUiClick false false endPoint modelUid (.status s) create) ∧
    (s ≠ 404 → ¬(200 ≤ s ∧ s ≤ 299) →
      Event.logError ∈
        openUiClick false false endPoint modelUid (.status s) create ∧
      (openUiClick false false endPoint modelUid (.status s) create).countP
          Event.isWinOpen = 0) := by
  refine ⟨?_, ?_, ?_⟩
  · intro hs hc
    subst hs; subst hc
    refine ⟨rfl, rfl, ?_⟩
    simp [openUiClick]
  · intro h1 h2
    have hne : ¬(s = 404) := by omega
    have hcond : 200 ≤ s ∧ s ≤ 299 := ⟨h1, h2⟩
    constructor
    · simp [openUiClick, hne, hcond, List.countP_cons, Event.isCall]
    · simp [openUiClick, hne, hcond]
  · intro hne hnot
    constructor
    · simp [openUiClick, hne, hnot]
    · simp [openUiClick, hne, hnot, List.countP_cons, Event.isWinOpen]

/-- C4 witness: the three branches at probe statuses 404, 200 and 500. -/
theorem openUi_flow_call_counts_witness :
    (openUiClick false false "e" "m1" (.status 404) .ok).countP
        Event.isCall = 2 ∧
    (openUiClick false false "e" "m1" (.status 200) .ok).countP
        Event.isCall = 1 ∧
    Event.logError ∈ openUiClick false false "e" "m1" (.status 500) .ok ∧
    (openUiClick false false "e" "m1" (.status 500) .ok).countP
        Event.isWinOpen = 0 := by
  refine ⟨?_, ?_, ?_, ?_⟩
  · exact ((openUi_flow_call_counts "e" "m1" 404 .ok).1 rfl rfl).2.1
  · exact ((openUi_flow_call_counts "e" "m1" 200 .ok).2.1 (by omega)
      (by omega)).1
  · exact ((openUi_flow_call_counts "e" "m1" 500 .ok).2.2 (by omega)
      (by omega)).1
  · exact ((openUi_flow_call_counts "e" "m1" 500 .ok).2.2 (by omega)
      (by omega)).2

/-- The Terminate-Model click handler of scenes/running_models: gated on
the two in-flight flags; one DELETE to the instance resource; whatever the
response status — the parsed body is discarded — or on a transport
rejection, the mutating flag is cleared. Setting the flag re-runs the
view's `[isCallingApi]` effect: `update(true)` injects the placeholder
rows while the call is in flight, and `update(false)` after the clear
starts a full list refresh, modelled here up to the GET it issues. The
pair returned is (events, final isCallingApi). -/
def terminateClickRM (isCallingApi isUpdatingModel : Bool)
    (endPoint modelUid : String) (outcome : ProbeResult) :
    List Event × Bool :=
  if isCallingApi || isUpdatingModel then ([], isCallingApi)
  else
    let closeUrl := endPoint ++ "/v1/models/" ++ modelUid
    let refreshTail := [Event.setUpdating true,
      Event.call "GET" (endPoint ++ "/v1/models/") none]
    match outcome with
    | .status _ =>
        ([Event.setCalling true, Event.call "DELETE" closeUrl none,
          Event.placeholders, Event.resp closeUrl,
          Event.setCalling false] ++ refreshTail, false)
    | .fail =>
        ([Event.setCalling true, Event.call "DELETE" closeUrl none,
          Event.placeholders, Event.logError,
          Event.setCalling false] ++ refreshTail, false)

/-- The Delete click handler of scenes/model_dashboard: gated on the
view-local `isCalling` flag; one DELETE; whatever the response status, or
on a transport rejection, it clears the flag and calls `update()`, which
issues the list GET — modelled here up to that GET. The pair returned is
(events, final isCalling). -/
def deleteClickMD (isCalling : Bool) (endPoint modelUid : String)
    (outcome : ProbeResult) : List Event × Bool :=
  if isCalling then ([], isCalling)
  else
    let closeUrl := endPoint ++ "/v1/models/" ++ modelUid
    let refreshTail := [Event.call "GET" (endPoint ++ "/v1/models") none]
    match outcome with
    | .status _ =>
        ([Event.setCalling true, Event.call "DELETE" closeUrl none,
          Event.resp closeUrl, Event.setCalling false] ++ refreshTail, false)
    | .fail =>
        ([Event.setCalling true, Event.call "DELETE" closeUrl none,
          Event.logError, Event.setCalling false] ++ refreshTail, false)

/-- C6: for every terminate invocation that passes the in-flight gate, on
any completion of the DELETE — any response status (500 included) or a
transport failure — the mutating flag ends false and a full list refresh
is triggered, in both the running-models view and the model dashboard. -/
theorem terminate_clears_flag_and_refreshes (endPoint modelUid : String)
    (outcome : ProbeResult) :
    ((terminateClickRM false false endPoint modelUid outcome).2 = false ∧
      Event.call "GET" (endPoint ++ "/v1/models/") none ∈
        (terminateClickRM false false endPoint modelUid outcome).1) ∧
    ((deleteClickMD false endPoint modelUid outcome).2 = false ∧
      Event.call "GET" (endPoint ++ "/v1/models") none ∈
        (deleteClickMD false endPoint modelUid outcome).1) := by
  cases outcome <;>
    exact ⟨⟨rfl, by simp [terminateClickRM]⟩, ⟨rfl, by simp [deleteClickMD]⟩⟩
